import Mathlib

/-
Verification of the diet-rule evaluation and meal-suggestion engine of
`thedietsite` (src/engines/dietRules.ts and the meal-suggestions engine).

Modelling conventions for the shallow embedding:
* JavaScript numbers that carry nutritional amounts, timestamps and epoch
  milliseconds are modelled as rationals (`ℚ`); the suggestion score only
  ever accumulates integer constants and is modelled as `ℤ`.
* `Date` values are modelled by `DateTime`: the epoch milliseconds
  (`getTime`) together with the local hour and minute (`getHours`,
  `getMinutes`), which are not derivable from the epoch value without a
  time zone and are therefore separate fields.
* ISO date strings that the source immediately converts with `new Date`
  (history `timestamp`, item `expirationDate`) are modelled directly as
  epoch milliseconds; the `"HH:MM"` fasting-window strings, which the
  source immediately converts with `parseInt` into minutes since
  midnight, are modelled directly as minutes since midnight.
* String lowercasing and substring containment (`toLowerCase`,
  `includes`) are modelled on character lists.
-/

namespace DietSite

/-- Lowercase a string into its character list, as `s.toLowerCase()`. -/
def lowerStr (s : String) : List Char := s.data.map Char.toLower

/-- Whether the first character list is an initial segment of the second. -/
def leadsWith : List Char → List Char → Bool
  | [], _ => true
  | _ :: _, [] => false
  | a :: as, b :: bs => a == b && leadsWith as bs

/-- Whether `sub` occurs contiguously inside the second list, as
JavaScript `String.prototype.includes`. -/
def containsSeq (sub : List Char) : List Char → Bool
  | [] => leadsWith sub []
  | h :: t => leadsWith sub (h :: t) || containsSeq sub t

/-- Source `containsAny`: lowercase the name and test whether any of the
lowercased keywords occurs inside it. -/
def containsAny (name : String) (keywords : List String) : Bool :=
  keywords.any fun k => containsSeq (lowerStr k) (lowerStr name)

/-- The twelve diet types of `types/index.ts`. -/
inductive DietType
  | lowGlycemic
  | mediterranean
  | keto
  | paleo
  | whole30
  | intermittentFasting
  | dash
  | vegan
  | vegetarian
  | highProtein
  | lowFodmap
  | flexitarian
deriving DecidableEq, Repr

/-- `DietaryGoal` of `types/index.ts`. -/
inductive DietaryGoal
  | glucoseStability
  | weightLoss
  | weightMaintenance
  | muscleGain
  | heartHealth
deriving DecidableEq, Repr

/-- `UnitsPreference` of `types/index.ts`. -/
inductive UnitsPreference
  | metric
  | imperial
deriving DecidableEq, Repr

/-- `FoodCategory` of `types/index.ts`. -/
inductive FoodCategory
  | produce
  | dairy
  | meat
  | pantry
  | frozen
  | beverages
  | condiments
  | grains
  | snacks
deriving DecidableEq, Repr

/-- An inventory quantity: a number, or the explicit `'unknown'` sentinel. -/
inductive Quantity
  | unknown
  | known (q : ℚ)
deriving DecidableEq

/-- The rule kinds of `DietRule.ruleType`. -/
inductive RuleType
  | allowed
  | restricted
  | timeBased
  | sequencing
  | macroThreshold
  | dailyLimit
deriving DecidableEq, Repr

/-- `InventoryItem` of `types/index.ts`.  `expirationDate` is the epoch
milliseconds of the stored ISO date string. -/
structure InventoryItem where
  id : String
  itemName : String
  quantity : Quantity
  unit : Option String
  category : FoodCategory
  fiberG : ℚ
  fatG : ℚ
  carbsG : ℚ
  proteinG : ℚ
  calories : Option ℚ
  glycemicIndex : Option ℚ
  servingSize : Option String
  expirationDate : Option ℚ
  lastUpdated : String
deriving DecidableEq

/-- The per-entry consumed macros of a `DietaryHistoryEntry`. -/
structure MacrosConsumed where
  fiberG : ℚ
  fatG : ℚ
  carbsG : ℚ
  proteinG : ℚ
  calories : Option ℚ
deriving DecidableEq

/-- `DietaryHistoryEntry` of `types/index.ts`.  `timestamp` is the epoch
milliseconds of the stored ISO timestamp string. -/
structure DietaryHistoryEntry where
  id : String
  timestamp : ℚ
  itemName : String
  itemId : Option String
  quantityConsumed : ℚ
  unit : Option String
  macrosConsumed : MacrosConsumed
  dietaryRuleViolations : List String
  glucoseRelevanceFlag : Bool
deriving DecidableEq

/-- The eating-schedule preferences of a profile. -/
structure EatingSchedule where
  breakfast : String
  lunch : String
  dinner : String
  snacks : List String
deriving DecidableEq

/-- A fasting window.  The source stores `start` and `end` as `"HH:MM"`
strings and converts each to minutes since midnight with `parseInt`; the
fields here hold those minutes directly (`stop` models the source field
`end`, which is a reserved word in Lean). -/
structure FastingWindow where
  start : ℕ
  stop : ℕ
deriving DecidableEq

/-- `UserProfile` of `types/index.ts`. -/
structure UserProfile where
  userId : String
  dietType : DietType
  dietaryGoals : List DietaryGoal
  eatingSchedule : EatingSchedule
  allergies : List String
  intolerances : List String
  unitsPreference : UnitsPreference
  fastingWindow : Option FastingWindow
deriving DecidableEq

/-- A `Date` value as the engine observes it: `ms` is `getTime()`, and
`hours`/`minutes` are the local-time `getHours()`/`getMinutes()`. -/
structure DateTime where
  ms : ℚ
  hours : ℕ
  minutes : ℕ
deriving DecidableEq

/-- `DietRuleParams` of `types/index.ts`. -/
structure DietRuleParams where
  item : InventoryItem
  currentTime : DateTime
  profile : UserProfile
  todayHistory : List DietaryHistoryEntry

/-- `DietRule` of `types/index.ts`. -/
structure DietRule where
  id : String
  dietType : DietType
  ruleType : RuleType
  description : String
  condition : DietRuleParams → Bool
  message : String

/-! Helper predicates of `dietRules.ts`. -/

/-- Source `NON_VEGAN_CATEGORIES = ['meat', 'dairy']`. -/
def NON_VEGAN_CATEGORIES : List FoodCategory := [.meat, .dairy]

/-- Source `isHighProtein`: `item.proteinG >= 15`. -/
def isHighProtein (item : InventoryItem) : Bool := item.proteinG ≥ 15

/-- Source `isHighFat`: `item.fatG >= 10`. -/
def isHighFat (item : InventoryItem) : Bool := item.fatG ≥ 10

/-- Source `isVegetarian`: the category is not meat. -/
def isVegetarian (item : InventoryItem) : Bool := item.category ≠ .meat

/-- Source `isVegan`: the category is outside `NON_VEGAN_CATEGORIES`. -/
def isVegan (item : InventoryItem) : Bool :=
  !(NON_VEGAN_CATEGORIES.any fun c => item.category = c)

/-- Source `isLowGI`: glycemic index undefined, or at most 55. -/
def isLowGI (item : InventoryItem) : Bool :=
  match item.glycemicIndex with
  | none => true
  | some g => g ≤ 55

/-- Source `isHighFiber`: `item.fiberG >= 3`. -/
def isHighFiber (item : InventoryItem) : Bool := item.fiberG ≥ 3

/-- Source `KETO_RESTRICTED`. -/
def KETO_RESTRICTED : List String :=
  ["bread", "pasta", "rice", "potato", "sugar", "fruit juice", "candy", "soda"]

/-- Source `PALEO_RESTRICTED`. -/
def PALEO_RESTRICTED : List String :=
  ["bread", "pasta", "rice", "beans", "peanut", "dairy", "processed"]

/-- Source `WHOLE30_RESTRICTED`. -/
def WHOLE30_RESTRICTED : List String :=
  ["sugar", "alcohol", "grain", "legume", "dairy", "soy", "carrageenan", "sulfites"]

/-- Source `LOW_FODMAP_RESTRICTED`. -/
def LOW_FODMAP_RESTRICTED : List String :=
  ["garlic", "onion", "wheat", "apple", "pear", "watermelon", "honey", "milk", "beans"]

/-- Source `DASH_ENCOURAGED`. -/
def DASH_ENCOURAGED : List String :=
  ["vegetable", "fruit", "whole grain", "lean protein", "nuts", "beans"]

/-! The rule table of `dietRules.ts`, one definition per entry of the
`dietRules` array, named after the rule ids. -/

/-- Rule `low-gi-allowed`. -/
def lowGiAllowed : DietRule :=
  { id := "low-gi-allowed", dietType := .lowGlycemic, ruleType := .allowed,
    description := "Prefer foods with low glycemic index",
    condition := fun p => isLowGI p.item,
    message := "Great choice for blood sugar stability" }

/-- Rule `low-gi-fiber`. -/
def lowGiFiber : DietRule :=
  { id := "low-gi-fiber", dietType := .lowGlycemic, ruleType := .allowed,
    description := "High fiber foods help stabilize glucose",
    condition := fun p => isHighFiber p.item,
    message := "High fiber content helps with glucose control" }

/-- Rule `keto-low-carb`, the keto macro-threshold rule. -/
def ketoLowCarb : DietRule :=
  { id := "keto-low-carb", dietType := .keto, ruleType := .macroThreshold,
    description := "Foods must be very low in carbohydrates",
    condition := fun p =>
      p.item.carbsG ≤ 5 || (p.item.carbsG ≤ 10 && p.item.fiberG ≥ p.item.carbsG * 0.3),
    message := "Fits keto carb limits" }

/-- Rule `keto-high-fat`. -/
def ketoHighFat : DietRule :=
  { id := "keto-high-fat", dietType := .keto, ruleType := .allowed,
    description := "Prefer high-fat foods",
    condition := fun p => isHighFat p.item,
    message := "Good fat source for keto" }

/-- Rule `keto-restricted`. -/
def ketoRestricted : DietRule :=
  { id := "keto-restricted", dietType := .keto, ruleType := .restricted,
    description := "Avoid high-carb foods",
    condition := fun p => !containsAny p.item.itemName KETO_RESTRICTED,
    message := "This food may be too high in carbs for keto" }

/-- Rule `med-vegetables`. -/
def medVegetables : DietRule :=
  { id := "med-vegetables", dietType := .mediterranean, ruleType := .allowed,
    description := "Emphasize vegetables",
    condition := fun p => p.item.category = .produce,
    message := "Great vegetable choice for Mediterranean diet" }

/-- Rule `med-healthy-fats`. -/
def medHealthyFats : DietRule :=
  { id := "med-healthy-fats", dietType := .mediterranean, ruleType := .allowed,
    description := "Include healthy fats",
    condition := fun p =>
      containsAny p.item.itemName ["olive", "avocado", "nuts", "fish", "salmon"],
    message := "Excellent source of healthy fats" }

/-- Rule `paleo-whole-foods`. -/
def paleoWholeFoods : DietRule :=
  { id := "paleo-whole-foods", dietType := .paleo, ruleType := .allowed,
    description := "Emphasize whole, unprocessed foods",
    condition := fun p => [FoodCategory.produce, .meat].any fun c => p.item.category = c,
    message := "Whole food appropriate for Paleo" }

/-- Rule `paleo-restricted`. -/
def paleoRestricted : DietRule :=
  { id := "paleo-restricted", dietType := .paleo, ruleType := .restricted,
    description := "Avoid grains, legumes, dairy, and processed foods",
    condition := fun p => !containsAny p.item.itemName PALEO_RESTRICTED,
    message := "This food is not typically allowed on Paleo" }

/-- Rule `whole30-restricted`. -/
def whole30Restricted : DietRule :=
  { id := "whole30-restricted", dietType := .whole30, ruleType := .restricted,
    description := "No sugar, alcohol, grains, legumes, soy, or dairy",
    condition := fun p => !containsAny p.item.itemName WHOLE30_RESTRICTED,
    message := "This food is not allowed on Whole30" }

/-- Rule `whole30-whole-foods`. -/
def whole30WholeFoods : DietRule :=
  { id := "whole30-whole-foods", dietType := .whole30, ruleType := .allowed,
    description := "Eat whole, unprocessed foods",
    condition := fun p => [FoodCategory.produce, .meat].any fun c => p.item.category = c,
    message := "Whole food appropriate for Whole30" }

/-- The condition of rule `if-fasting-window`.  When a fasting window is
set, `now`, `start` and `stop` are minutes since midnight (`stop` models
the source variable `end`); the two comparisons and their placement in
the two branches reproduce the source exactly. -/
def ifFastingWindowCondition (p : DietRuleParams) : Bool :=
  match p.profile.fastingWindow with
  | none => true
  | some w =>
    let now := p.currentTime.hours * 60 + p.currentTime.minutes
    let start := w.start
    let stop := w.stop
    if start > stop then
      now < start && now ≥ stop
    else
      now ≥ stop && now < start

/-- Rule `if-fasting-window`, the intermittent-fasting time-based rule. -/
def ifFastingWindow : DietRule :=
  { id := "if-fasting-window", dietType := .intermittentFasting, ruleType := .timeBased,
    description := "Check if currently in eating window",
    condition := ifFastingWindowCondition,
    message := "You are currently in your fasting window" }

/-- Rule `dash-low-sodium`. -/
def dashLowSodium : DietRule :=
  { id := "dash-low-sodium", dietType := .dash, ruleType := .allowed,
    description := "Emphasize low-sodium, nutrient-rich foods",
    condition := fun p =>
      containsAny p.item.itemName DASH_ENCOURAGED || p.item.category = .produce,
    message := "Heart-healthy choice for DASH diet" }

/-- Rule `dash-vegetables`. -/
def dashVegetables : DietRule :=
  { id := "dash-vegetables", dietType := .dash, ruleType := .allowed,
    description := "Emphasize fruits and vegetables",
    condition := fun p => decide (p.item.category = .produce) && isHighFiber p.item,
    message := "Excellent produce choice for DASH" }

/-- Rule `vegan-no-animal`. -/
def veganNoAnimal : DietRule :=
  { id := "vegan-no-animal", dietType := .vegan, ruleType := .restricted,
    description := "No animal products",
    condition := fun p => isVegan p.item,
    message := "This food contains animal products" }

/-- Rule `vegan-protein`. -/
def veganProtein : DietRule :=
  { id := "vegan-protein", dietType := .vegan, ruleType := .allowed,
    description := "Plant-based protein sources",
    condition := fun p => isVegan p.item && p.item.proteinG ≥ 5,
    message := "Good plant-based protein source" }

/-- Rule `vegetarian-no-meat`. -/
def vegetarianNoMeat : DietRule :=
  { id := "vegetarian-no-meat", dietType := .vegetarian, ruleType := .restricted,
    description := "No meat",
    condition := fun p => isVegetarian p.item,
    message := "This food contains meat" }

/-- Rule `high-protein-priority`. -/
def highProteinPriority : DietRule :=
  { id := "high-protein-priority", dietType := .highProtein, ruleType := .allowed,
    description := "Prioritize high-protein foods",
    condition := fun p => isHighProtein p.item,
    message := "Excellent protein source" }

/-- The condition of rule `high-protein-sequence`.  The source reads
`carbMeals[carbMeals.length - 1]` and `proteinMeals[proteinMeals.length - 1]`,
the last elements of the filtered arrays, modelled with `List.getLast?`;
the timestamp comparison `new Date(p) < new Date(c)` is the comparison of
the parsed epoch milliseconds. -/
def highProteinSequenceCondition (p : DietRuleParams) : Bool :=
  if !isHighProtein p.item then true
  else
    let carbMeals := p.todayHistory.filter fun h => h.macrosConsumed.carbsG > 15
    let proteinMeals := p.todayHistory.filter fun h => h.macrosConsumed.proteinG > 15
    match carbMeals.getLast?, proteinMeals.getLast? with
    | none, _ => true
    | some _, none => false
    | some lastCarbMeal, some lastProteinMeal =>
      lastProteinMeal.timestamp < lastCarbMeal.timestamp

/-- Rule `high-protein-sequence`, the protein-before-carbs sequencing rule. -/
def highProteinSequence : DietRule :=
  { id := "high-protein-sequence", dietType := .highProtein, ruleType := .sequencing,
    description := "Eat protein before carbs",
    condition := highProteinSequenceCondition,
    message := "Try to eat protein before carbs for better satiety" }

/-- Rule `low-fodmap-restricted`. -/
def lowFodmapRestricted : DietRule :=
  { id := "low-fodmap-restricted", dietType := .lowFodmap, ruleType := .restricted,
    description := "Avoid high-FODMAP foods",
    condition := fun p => !containsAny p.item.itemName LOW_FODMAP_RESTRICTED,
    message := "This food may be high in FODMAPs" }

/-- Rule `flexitarian-mostly-plants`. -/
def flexitarianMostlyPlants : DietRule :=
  { id := "flexitarian-mostly-plants", dietType := .flexitarian, ruleType := .allowed,
    description := "Emphasize plant-based foods with occasional meat",
    condition := fun p =>
      if p.item.category ≠ .meat then true
      else
        let meatMealsToday := (p.todayHistory.filter fun h =>
          containsSeq (lowerStr "meat") (lowerStr h.itemName) ||
          containsSeq (lowerStr "chicken") (lowerStr h.itemName) ||
          containsSeq (lowerStr "beef") (lowerStr h.itemName)).length
        meatMealsToday < 1,
    message := "Consider a plant-based alternative" }

/-- The `dietRules` array, in source order. -/
def dietRules : List DietRule :=
  [lowGiAllowed, lowGiFiber,
   ketoLowCarb, ketoHighFat, ketoRestricted,
   medVegetables, medHealthyFats,
   paleoWholeFoods, paleoRestricted,
   whole30Restricted, whole30WholeFoods,
   ifFastingWindow,
   dashLowSodium, dashVegetables,
   veganNoAnimal, veganProtein,
   vegetarianNoMeat,
   highProteinPriority, highProteinSequence,
   lowFodmapRestricted,
   flexitarianMostlyPlants]

/-- Source `getRulesForDiet`. -/
def getRulesForDiet (dietType : DietType) : List DietRule :=
  dietRules.filter fun rule => rule.dietType = dietType

/-- The result record of `evaluateItem`. -/
structure EvalResult where
  passed : Bool
  messages : List String
  warnings : List String
deriving DecidableEq

/-- One iteration of the `for` loop of `evaluateItem`: the source
branches on `rule.ruleType` (`restricted`/`time-based` flip `passed` and
warn on a false condition; `allowed` informs on a true condition;
`sequencing` warns on a false condition; other kinds fall through the
`if`/`else if` chain and leave the state unchanged). -/
def evalStep (params : DietRuleParams) (st : EvalResult) (rule : DietRule) : EvalResult :=
  let result := rule.condition params
  match rule.ruleType with
  | .restricted | .timeBased =>
    if result then st
    else { st with passed := false, warnings := st.warnings ++ [rule.message] }
  | .allowed =>
    if result then { st with messages := st.messages ++ [rule.message] } else st
  | .sequencing =>
    if result then st else { st with warnings := st.warnings ++ [rule.message] }
  | .macroThreshold | .dailyLimit => st

/-- Source `evaluateItem`: fold the loop body over the rules of the
profile's diet type, starting from `passed = true` and empty lists. -/
def evaluateItem (params : DietRuleParams) : EvalResult :=
  (getRulesForDiet params.profile.dietType).foldl (evalStep params) ⟨true, [], []⟩

/-- The totals record returned by `calculateDailyMacros`. -/
structure DailyMacros where
  totalCarbs : ℚ
  totalProtein : ℚ
  totalFat : ℚ
  totalFiber : ℚ
  totalCalories : ℚ
deriving DecidableEq

/-- Component-wise addition of two totals records. -/
def DailyMacros.add (a b : DailyMacros) : DailyMacros :=
  ⟨a.totalCarbs + b.totalCarbs, a.totalProtein + b.totalProtein,
   a.totalFat + b.totalFat, a.totalFiber + b.totalFiber,
   a.totalCalories + b.totalCalories⟩

/-- Source `calculateDailyMacros`: a `reduce` from all-zero totals; a
missing `calories` contributes `0` (`calories || 0`). -/
def calculateDailyMacros (history : List DietaryHistoryEntry) : DailyMacros :=
  history.foldl (fun acc entry =>
    { totalCarbs := acc.totalCarbs + entry.macrosConsumed.carbsG,
      totalProtein := acc.totalProtein + entry.macrosConsumed.proteinG,
      totalFat := acc.totalFat + entry.macrosConsumed.fatG,
      totalFiber := acc.totalFiber + entry.macrosConsumed.fiberG,
      totalCalories := acc.totalCalories + entry.macrosConsumed.calories.getD 0 })
    ⟨0, 0, 0, 0, 0⟩

/-- The per-diet record of the `limits` table inside `checkDailyLimits`. -/
structure LimitSpec where
  carbs : Option ℚ
  protein : Option ℚ
  fat : Option ℚ

/-- The `limits` table of `checkDailyLimits`: only keto and low-glycemic
carry a carbs ceiling; high-protein declares a protein minimum that the
function never reads; every other diet has an empty record. -/
def dietLimits : DietType → LimitSpec
  | .keto => ⟨some 50, none, none⟩
  | .lowGlycemic => ⟨some 130, none, none⟩
  | .highProtein => ⟨none, some 150, none⟩
  | _ => ⟨none, none, none⟩

/-- The result record of `checkDailyLimits`. -/
structure LimitResult where
  fits : Bool
  warnings : List String
deriving DecidableEq

/-- The carb-limit warning string, with the ceiling interpolated. -/
def carbLimitWarning (c : ℚ) : String :=
  "This would exceed your daily carb limit of " ++ toString c ++ "g"

/-- Source `checkDailyLimits`: aggregate today's macros and compare the
total carbs plus the candidate item's carbs against the diet's carbs
ceiling.  The source guard is `dietLimits.carbs && total > dietLimits.carbs`,
so an absent ceiling (and, by JavaScript truthiness, a zero one) always
fits; no other field of the limits table is consulted. -/
def checkDailyLimits (item : InventoryItem) (todayHistory : List DietaryHistoryEntry)
    (dietType : DietType) : LimitResult :=
  let dailyMacros := calculateDailyMacros todayHistory
  match (dietLimits dietType).carbs with
  | some c =>
    if c ≠ 0 ∧ dailyMacros.totalCarbs + item.carbsG > c then
      ⟨false, [carbLimitWarning c]⟩
    else ⟨true, []⟩
  | none => ⟨true, []⟩

/-! The meal-suggestions engine. -/

/-- Milliseconds per day, the divisor `1000 * 60 * 60 * 24`. -/
def msPerDay : ℚ := 86400000

/-- The delta and messages one scoring factor contributes. -/
structure FactorOut where
  delta : ℤ
  reasons : List String
  warnings : List String
deriving DecidableEq

/-- The `reasons[].push` text for an item expiring within two days. -/
def eatSoonMsg (n : ℤ) : String :=
  "Eat soon - expiring in " ++ toString n ++ " days"

/-- The `reasons[].push` text for an item expiring within five days. -/
def considerSoonMsg (n : ℤ) : String :=
  "Consider eating soon - expires in " ++ toString n ++ " days"

/-- Factor 3 of `calculateSuggestionScore` (expiration urgency):
`daysUntilExpiry` is the fractional `(expirationDate - currentTime) / msPerDay`;
expired or exactly at expiry costs 100 and warns, up to two days out gains
25, up to five days out gains 10, later (or no expiration date) changes
nothing.  `Math.ceil` is the rational ceiling. -/
def expirationFactor (item : InventoryItem) (currentTime : DateTime) : FactorOut :=
  match item.expirationDate with
  | none => ⟨0, [], []⟩
  | some expMs =>
    let daysUntilExpiry : ℚ := (expMs - currentTime.ms) / msPerDay
    if daysUntilExpiry ≤ 0 then
      ⟨-100, [], ["This item has expired"]⟩
    else if daysUntilExpiry ≤ 2 then
      ⟨25, [eatSoonMsg ⌈daysUntilExpiry⌉], []⟩
    else if daysUntilExpiry ≤ 5 then
      ⟨10, [considerSoonMsg ⌈daysUntilExpiry⌉], []⟩
    else ⟨0, [], []⟩

/-- Factor 4 of `calculateSuggestionScore` (glucose-stability bonuses):
active only when the profile's goals include glucose-stability; a defined
glycemic index of at most 55 gains 15, fiber of at least 3g gains 10, and
protein of at least 10g with carbs of at most 10g gains 10; the three
stack, and the reasons accumulate in that order. -/
def glucoseGoalFactor (item : InventoryItem) (profile : UserProfile) : FactorOut :=
  if profile.dietaryGoals.any fun g => g = .glucoseStability then
    let giHit : Bool :=
      match item.glycemicIndex with
      | some g => g ≤ 55
      | none => false
    let fiberHit : Bool := item.fiberG ≥ 3
    let proteinCarbHit : Bool := item.proteinG ≥ 10 && item.carbsG ≤ 10
    ⟨(if giHit then 15 else 0) + (if fiberHit then 10 else 0) +
       (if proteinCarbHit then 10 else 0),
     (if giHit then ["Low glycemic index - good for blood sugar"] else []) ++
       (if fiberHit then ["High fiber helps stabilize glucose"] else []) ++
       (if proteinCarbHit then ["Protein-rich with low carbs - stabilizes glucose"] else []),
     []⟩
  else ⟨0, [], []⟩

/-- Factor 5 of `calculateSuggestionScore` (meal timing): the hour bands
are breakfast `[6,10)`, lunch `[11,14)`, dinner `[17,21)`, snack time
otherwise; a snacks-category item at snack time gains 10. -/
def mealTimingFactor (item : InventoryItem) (currentTime : DateTime) : FactorOut :=
  let hour := currentTime.hours
  let isBreakfastTime : Bool := 6 ≤ hour ∧ hour < 10
  let isLunchTime : Bool := 11 ≤ hour ∧ hour < 14
  let isDinnerTime : Bool := 17 ≤ hour ∧ hour < 21
  let isSnackTime : Bool := !isBreakfastTime && !isLunchTime && !isDinnerTime
  if isSnackTime && decide (item.category = .snacks) then
    ⟨10, ["Good snack option"], []⟩
  else ⟨0, [], []⟩

/-- Factor 6 of `calculateSuggestionScore` (variety): the lowercased
names of the last three history entries (`slice(-3)`); if none of them
contains the candidate's lowercased name as a substring, gain 5. -/
def varietyBonus (item : InventoryItem) (todayHistory : List DietaryHistoryEntry) : ℤ :=
  let recentCategories :=
    (todayHistory.drop (todayHistory.length - 3)).map fun h => lowerStr h.itemName
  if !(recentCategories.any fun nm => containsSeq (lowerStr item.itemName) nm) then 5
  else 0

/-- Factor 7 of `calculateSuggestionScore` (availability): a known
quantity strictly above zero gains 5. -/
def availabilityBonus (item : InventoryItem) : ℤ :=
  match item.quantity with
  | .known q => if q > 0 then 5 else 0
  | .unknown => 0

/-- The `{score, reasons, warnings}` triple of `calculateSuggestionScore`. -/
structure ScoreParts where
  score : ℤ
  reasons : List String
  warnings : List String
deriving DecidableEq

/-- The body of `calculateSuggestionScore` before the final clamp.  The
source starts from `score = 50` and applies its seven factors one after
the other with `+=`/`-=`; since every adjustment is a constant, the
running mutation is the sum written here, and the `push` calls accumulate
the reasons and warnings in the factor order (rules, limits, expiration,
glucose goal, meal timing; factors 6 and 7 push no text). -/
def unclampedSuggestionScore (item : InventoryItem) (profile : UserProfile)
    (todayHistory : List DietaryHistoryEntry) (currentTime : DateTime) : ScoreParts :=
  let ruleResult := evaluateItem ⟨item, currentTime, profile, todayHistory⟩
  let limitResult := checkDailyLimits item todayHistory profile.dietType
  let expFactor := expirationFactor item currentTime
  let goalFactor := glucoseGoalFactor item profile
  let timingFactor := mealTimingFactor item currentTime
  { score := 50 + (if ruleResult.passed then 20 else -40) +
      (if limitResult.fits then 0 else -30) +
      expFactor.delta + goalFactor.delta + timingFactor.delta +
      varietyBonus item todayHistory + availabilityBonus item,
    reasons := (if ruleResult.passed then ruleResult.messages else []) ++
      expFactor.reasons ++ goalFactor.reasons ++ timingFactor.reasons,
    warnings := (if ruleResult.passed then [] else ruleResult.warnings) ++
      (if limitResult.fits then [] else limitResult.warnings) ++
      expFactor.warnings }

/-- Source `calculateSuggestionScore`: the unclamped accumulation, with
the returned score clamped to `[0, 100]` by
`Math.max(0, Math.min(100, score))`. -/
def calculateSuggestionScore (item : InventoryItem) (profile : UserProfile)
    (todayHistory : List DietaryHistoryEntry) (currentTime : DateTime) : ScoreParts :=
  let r := unclampedSuggestionScore item profile todayHistory currentTime
  { r with score := max 0 (min 100 r.score) }

/-- `MealSuggestion` of `types/index.ts`. -/
structure MealSuggestion where
  item : InventoryItem
  reason : String
  score : ℤ
  warnings : List String
deriving DecidableEq

/-- The loop body of `generateSuggestions` for one inventory item: skip
items with a known quantity at most zero, skip condiments, score the
rest, and keep only scores of at least 20, joining the reasons with a
period (or the fixed fallback text when there are none). -/
def suggestionFor (profile : UserProfile) (todayHistory : List DietaryHistoryEntry)
    (currentTime : DateTime) (item : InventoryItem) : Option MealSuggestion :=
  if (match item.quantity with | .known q => decide (q ≤ 0) | .unknown => false) then none
  else if item.category = .condiments then none
  else
    let r := calculateSuggestionScore item profile todayHistory currentTime
    if r.score ≥ 20 then
      some ⟨item,
        if r.reasons.length > 0 then String.intercalate ". " r.reasons
        else "Available in your pantry",
        r.score, r.warnings⟩
    else none

/-- The `suggestions` array of `generateSuggestions` before sorting, in
the encounter order of the inventory. -/
def buildSuggestions (inventory : List InventoryItem) (profile : UserProfile)
    (todayHistory : List DietaryHistoryEntry) (currentTime : DateTime) :
    List MealSuggestion :=
  inventory.filterMap (suggestionFor profile todayHistory currentTime)

/-- Insert a suggestion into a list sorted by descending score, after
every element of strictly higher score and before the rest. -/
def insertDescBy (s : MealSuggestion) : List MealSuggestion → List MealSuggestion
  | [] => [s]
  | t :: ts => if t.score > s.score then t :: insertDescBy s ts else s :: t :: ts

/-- Stable descending-by-score sort.  `Array.prototype.sort` with the
comparator `(a, b) => b.score - a.score` is required by ECMAScript to be
a stable sort, and a stable sort under a total preorder has exactly one
possible output, realised here by insertion sort. -/
def sortByScoreDesc : List MealSuggestion → List MealSuggestion
  | [] => []
  | s :: ss => insertDescBy s (sortByScoreDesc ss)

/-- Source `generateSuggestions`: build the per-item suggestions, then
sort by score, highest first. -/
def generateSuggestions (inventory : List InventoryItem) (profile : UserProfile)
    (todayHistory : List DietaryHistoryEntry) (currentTime : DateTime) :
    List MealSuggestion :=
  sortByScoreDesc (buildSuggestions inventory profile todayHistory currentTime)

/-- The rule table with every macro-threshold and daily-limit rule
removed, evaluated by the same loop: the comparison point for the claim
that `evaluateItem` ignores rules of those kinds. -/
def evaluateItemIgnoringMacroRules (params : DietRuleParams) : EvalResult :=
  ((getRulesForDiet params.profile.dietType).filter fun r =>
    !(decide (r.ruleType = RuleType.macroThreshold) ||
      decide (r.ruleType = RuleType.dailyLimit))).foldl (evalStep params) ⟨true, [], []⟩

/-! Concrete fixtures for the closed instances below. -/

/-- A fixed eating schedule (no rule reads it). -/
def fxSchedule : EatingSchedule := ⟨"07:00", "12:00", "18:00", []⟩

/-- A neutral pantry item of unknown quantity with all-zero macros. -/
def fxItem : InventoryItem :=
  ⟨"i1", "zz", .unknown, none, .pantry, 0, 0, 0, 0, none, none, none, none, ""⟩

/-- The neutral item with a known positive quantity. -/
def fxItemKnown : InventoryItem :=
  ⟨"i2", "zz", .known 1, none, .pantry, 0, 0, 0, 0, none, none, none, none, ""⟩

/-- A high-protein item (20g protein). -/
def fxItemProtein : InventoryItem :=
  ⟨"i3", "zz", .known 1, none, .pantry, 0, 0, 0, 20, none, none, none, none, ""⟩

/-- An item with 30g carbs. -/
def fxItemCarb30 : InventoryItem :=
  ⟨"i4", "zz", .known 1, none, .pantry, 0, 0, 30, 0, none, none, none, none, ""⟩

/-- Noon. -/
def fxTimeNoon : DateTime := ⟨0, 12, 0⟩

/-- 13:20, i.e. 800 minutes since midnight. -/
def fxTimeAfternoon : DateTime := ⟨0, 13, 20⟩

/-- A fasting window wrapping midnight: fast from 20:00 (1200 minutes) to
12:00 (720 minutes). -/
def fxWindow : FastingWindow := ⟨1200, 720⟩

/-- A vegetarian profile with no goals. -/
def fxProfileVeg : UserProfile :=
  ⟨"u", .vegetarian, [], fxSchedule, [], [], .metric, none⟩

/-- An intermittent-fasting profile with the wrapping window. -/
def fxProfileIF : UserProfile :=
  ⟨"u", .intermittentFasting, [], fxSchedule, [], [], .metric, some fxWindow⟩

/-- A high-protein profile. -/
def fxProfileHP : UserProfile :=
  ⟨"u", .highProtein, [], fxSchedule, [], [], .metric, none⟩

/-- A history entry with 20g carbs at timestamp 1. -/
def fxEntryCarb : DietaryHistoryEntry :=
  ⟨"h1", 1, "a", none, 1, none, ⟨0, 0, 20, 0, none⟩, [], false⟩

/-- A history entry with 20g protein at timestamp 2. -/
def fxEntryProt : DietaryHistoryEntry :=
  ⟨"h2", 2, "b", none, 1, none, ⟨0, 0, 0, 20, none⟩, [], false⟩

/-- Today's history: carbs first (timestamp 1), then protein (timestamp 2). -/
def fxHistSeq : List DietaryHistoryEntry := [fxEntryCarb, fxEntryProt]

/-- A history entry with 25g carbs (and 200 calories) at timestamp 0. -/
def fxEntryKeto : DietaryHistoryEntry :=
  ⟨"h3", 0, "prev", none, 1, none, ⟨0, 10, 25, 20, some 200⟩, [], false⟩

/-- The neutral unknown-quantity item expiring exactly one day after
`fxTimeNoon`. -/
def fxItemExpiring : InventoryItem :=
  ⟨"i5", "zz", .unknown, none, .pantry, 0, 0, 0, 0, none, none, none, some 86400000, ""⟩

/-- The known-quantity item expiring exactly one day after `fxTimeNoon`. -/
def fxItemKnownExpiring : InventoryItem :=
  ⟨"i6", "zz", .known 1, none, .pantry, 0, 0, 0, 0, none, none, none, some 86400000, ""⟩

/-- The suggestion `generateSuggestions` produces for `fxItem` under the
vegetarian profile at noon with empty history. -/
def fxSuggestion : MealSuggestion := ⟨fxItem, "Available in your pantry", 75, []⟩

/-! Fold lemmas for the `evaluateItem` loop. -/

lemma foldl_evalStep_passed (params : DietRuleParams) (rules : List DietRule) :
    ∀ st : EvalResult,
      (rules.foldl (evalStep params) st).passed =
        (st.passed && !(rules.any fun r =>
          (decide (r.ruleType = RuleType.restricted) ||
           decide (r.ruleType = RuleType.timeBased)) && !(r.condition params))) := by
  induction rules with
  | nil => intro st; simp
  | cons r rs ih =>
    intro st
    rw [List.foldl_cons, ih]
    cases hrt : r.ruleType <;> cases hc : r.condition params <;>
      simp [evalStep, hrt, hc, Bool.and_assoc]

lemma foldl_evalStep_messages (params : DietRuleParams) (rules : List DietRule) :
    ∀ st : EvalResult,
      (rules.foldl (evalStep params) st).messages =
        st.messages ++ ((rules.filter fun r =>
          decide (r.ruleType = RuleType.allowed) && r.condition params).map
            fun r => r.message) := by
  induction rules with
  | nil => intro st; simp
  | cons r rs ih =>
    intro st
    rw [List.foldl_cons, ih]
    cases hrt : r.ruleType <;> cases hc : r.condition params <;>
      simp [evalStep, hrt, hc, List.filter_cons]

lemma foldl_evalStep_warnings (params : DietRuleParams) (rules : List DietRule) :
    ∀ st : EvalResult,
      (rules.foldl (evalStep params) st).warnings =
        st.warnings ++ ((rules.filter fun r =>
          (decide (r.ruleType = RuleType.restricted) ||
           decide (r.ruleType = RuleType.timeBased) ||
           decide (r.ruleType = RuleType.sequencing)) && !(r.condition params)).map
            fun r => r.message) := by
  induction rules with
  | nil => intro st; simp
  | cons r rs ih =>
    intro st
    rw [List.foldl_cons, ih]
    cases hrt : r.ruleType <;> cases hc : r.condition params <;>
      simp [evalStep, hrt, hc, List.filter_cons]

lemma foldl_evalStep_skips_macro (params : DietRuleParams) (rules : List DietRule) :
    ∀ st : EvalResult,
      ((rules.filter fun r =>
        !(decide (r.ruleType = RuleType.macroThreshold) ||
          decide (r.ruleType = RuleType.dailyLimit))).foldl (evalStep params) st) =
        rules.foldl (evalStep params) st := by
  induction rules with
  | nil => intro st; simp
  | cons r rs ih =>
    intro st
    cases hrt : r.ruleType <;>
      simp [List.filter_cons, hrt, evalStep, List.foldl_cons] <;>
      simpa using ih _

/-- C1: `evaluateItem` fails exactly on a false restricted or time-based
rule of the profile's diet type; `allowed` rules that evaluate true
contribute exactly the `messages`, and the `warnings` are exactly the
messages of the restricted, time-based and sequencing rules that
evaluated false (so a false sequencing rule warns without affecting
`passed`). -/
theorem evaluateItem_passed_iff_hard_rule_failure (params : DietRuleParams) :
    ((evaluateItem params).passed = false ↔
      ∃ r ∈ getRulesForDiet params.profile.dietType,
        (r.ruleType = RuleType.restricted ∨ r.ruleType = RuleType.timeBased) ∧
        r.condition params = false)
    ∧ (evaluateItem params).messages =
        ((getRulesForDiet params.profile.dietType).filter fun r =>
          decide (r.ruleType = RuleType.allowed) && r.condition params).map
          (fun r => r.message)
    ∧ (evaluateItem params).warnings =
        ((getRulesForDiet params.profile.dietType).filter fun r =>
          (decide (r.ruleType = RuleType.restricted) ||
           decide (r.ruleType = RuleType.timeBased) ||
           decide (r.ruleType = RuleType.sequencing)) && !(r.condition params)).map
          (fun r => r.message) := by
  refine ⟨?_, ?_, ?_⟩
  · rw [evaluateItem, foldl_evalStep_passed]
    simp [List.any_eq_true, Bool.not_eq_true']
  · rw [evaluateItem, foldl_evalStep_messages]; rfl
  · rw [evaluateItem, foldl_evalStep_warnings]; rfl

/-- C10: removing every macro-threshold and daily-limit rule from the
rule table leaves the result of `evaluateItem` unchanged on every input;
in particular the keto `keto-low-carb` macro-threshold rule never affects
`passed`, `messages` or `warnings`. -/
theorem evaluateItem_ignores_macro_and_daily_limit_rules (params : DietRuleParams) :
    evaluateItemIgnoringMacroRules params = evaluateItem params := by
  rw [evaluateItemIgnoringMacroRules, evaluateItem, foldl_evalStep_skips_macro]

/-! Reduction of the rule table to the rules of single diets. -/

lemma rulesForIntermittentFasting :
    getRulesForDiet .intermittentFasting = [ifFastingWindow] := rfl

lemma rulesForHighProtein :
    getRulesForDiet .highProtein = [highProteinPriority, highProteinSequence] := rfl

/-- C2 (amended): for an intermittent-fasting profile with a fasting
window, `evaluateItem` reports the fasting-window failure (passed false
with exactly the fasting warning) exactly when the rule condition is
false, i.e. in the NEGATION of the two per-branch formulas: for a
wrapping window (`start > end`) exactly when NOT (`now < start` and
`now >= end`), and for a non-wrapping window exactly when NOT
(`now >= end` and `now < start`).  The claim asserted the un-negated
formulas; the code treats them as the eating-window condition. -/
theorem ifFastingWindow_polarity_amended (item : InventoryItem) (t : DateTime)
    (profile : UserProfile) (hist : List DietaryHistoryEntry) (w : FastingWindow)
    (hd : profile.dietType = .intermittentFasting)
    (hw : profile.fastingWindow = some w) :
    ((evaluateItem ⟨item, t, profile, hist⟩).passed = false ∧
      (evaluateItem ⟨item, t, profile, hist⟩).warnings =
        ["You are currently in your fasting window"]) ↔
      (if w.start > w.stop
       then ¬(t.hours * 60 + t.minutes < w.start ∧ w.stop ≤ t.hours * 60 + t.minutes)
       else ¬(w.stop ≤ t.hours * 60 + t.minutes ∧ t.hours * 60 + t.minutes < w.start)) := by
  have hrules : getRulesForDiet
      (⟨item, t, profile, hist⟩ : DietRuleParams).profile.dietType = [ifFastingWindow] := by
    show getRulesForDiet profile.dietType = _
    rw [hd]; exact rulesForIntermittentFasting
  rw [evaluateItem, hrules]
  simp only [List.foldl_cons, List.foldl_nil]
  have hcond : ifFastingWindow.condition ⟨item, t, profile, hist⟩ =
      ifFastingWindowCondition ⟨item, t, profile, hist⟩ := rfl
  rw [show (evalStep ⟨item, t, profile, hist⟩ ⟨true, [], []⟩ ifFastingWindow) =
      (if ifFastingWindowCondition ⟨item, t, profile, hist⟩ then ⟨true, [], []⟩
       else ⟨false, [], ["You are currently in your fasting window"]⟩ : EvalResult) from by
    rw [evalStep]; rfl]
  rw [ifFastingWindowCondition]
  simp only [hw]
  by_cases hss : w.start > w.stop <;>
    by_cases hin : (t.hours * 60 + t.minutes < w.start ∧ w.stop ≤ t.hours * 60 + t.minutes) <;>
    by_cases hin2 : (w.stop ≤ t.hours * 60 + t.minutes ∧ t.hours * 60 + t.minutes < w.start) <;>
    simp [hss, hin, hin2]

/-- C2 counterexample to the claim as stated: with the wrapping window
20:00 to 12:00 (`start = 1200 > end = 720`) at 13:20 (`now = 800`), the
claim's wrapping-branch formula `now < start and now >= end` holds, so
the claim predicts an in-fasting-window failure with the fasting warning;
the code's rule condition is TRUE there (13:20 is in the eating window),
so evaluation passes with no warning. -/
theorem ifFastingWindow_claim_counterexample :
    fxWindow.start > fxWindow.stop ∧
    fxTimeAfternoon.hours * 60 + fxTimeAfternoon.minutes < fxWindow.start ∧
    fxWindow.stop ≤ fxTimeAfternoon.hours * 60 + fxTimeAfternoon.minutes ∧
    (evaluateItem ⟨fxItem, fxTimeAfternoon, fxProfileIF, []⟩).passed = true ∧
    (evaluateItem ⟨fxItem, fxTimeAfternoon, fxProfileIF, []⟩).warnings = [] := by
  decide

/-- Closed instance of the amended C2 theorem at the wrapping window and
13:20. -/
theorem ifFastingWindow_polarity_amended_witness :
    ((evaluateItem ⟨fxItem, fxTimeAfternoon, fxProfileIF, []⟩).passed = false ∧
      (evaluateItem ⟨fxItem, fxTimeAfternoon, fxProfileIF, []⟩).warnings =
        ["You are currently in your fasting window"]) ↔
      (if fxWindow.start > fxWindow.stop
       then ¬(fxTimeAfternoon.hours * 60 + fxTimeAfternoon.minutes < fxWindow.start ∧
              fxWindow.stop ≤ fxTimeAfternoon.hours * 60 + fxTimeAfternoon.minutes)
       else ¬(fxWindow.stop ≤ fxTimeAfternoon.hours * 60 + fxTimeAfternoon.minutes ∧
              fxTimeAfternoon.hours * 60 + fxTimeAfternoon.minutes < fxWindow.start)) :=
  ifFastingWindow_polarity_amended fxItem fxTimeAfternoon fxProfileIF [] fxWindow rfl rfl

/-- C3 (amended): for a high-protein profile, `evaluateItem` emits
exactly the sequencing warning when the `high-protein-sequence`
condition is false, and that condition is true exactly when the candidate
item is not high-protein (protein below 15g), or no history entry with
more than 15g carbs exists, or the last-listed entry with more than 15g
protein has a timestamp strictly BEFORE the last-listed entry with more
than 15g carbs.  The claim asserted the opposite comparison (protein
strictly after carbs) and omitted the high-protein item guard. -/
theorem highProteinSequence_polarity_amended (item : InventoryItem) (t : DateTime)
    (profile : UserProfile) (hist : List DietaryHistoryEntry)
    (hd : profile.dietType = .highProtein) :
    (evaluateItem ⟨item, t, profile, hist⟩).warnings =
      (if highProteinSequenceCondition ⟨item, t, profile, hist⟩ then []
       else ["Try to eat protein before carbs for better satiety"]) ∧
    (highProteinSequenceCondition ⟨item, t, profile, hist⟩ = true ↔
      (item.proteinG < 15 ∨
       (hist.filter fun h => h.macrosConsumed.carbsG > 15).getLast? = none ∨
       ∃ p c, (hist.filter fun h => h.macrosConsumed.proteinG > 15).getLast? = some p ∧
         (hist.filter fun h => h.macrosConsumed.carbsG > 15).getLast? = some c ∧
         p.timestamp < c.timestamp)) := by
  constructor
  · have hrules : getRulesForDiet
        (⟨item, t, profile, hist⟩ : DietRuleParams).profile.dietType =
        [highProteinPriority, highProteinSequence] := by
      show getRulesForDiet profile.dietType = _
      rw [hd]; exact rulesForHighProtein
    rw [evaluateItem, hrules, foldl_evalStep_warnings]
    cases hc : highProteinSequenceCondition ⟨item, t, profile, hist⟩ <;>
      cases hp : isHighProtein item <;>
      simp [List.filter_cons, highProteinPriority, highProteinSequence, hc, hp]
  · rcases hcl : (hist.filter fun h => h.macrosConsumed.carbsG > 15).getLast? with _ | c <;>
      rcases hpl : (hist.filter fun h => h.macrosConsumed.proteinG > 15).getLast? with _ | p <;>
      by_cases hip : 15 ≤ item.proteinG <;>
      simp [highProteinSequenceCondition, isHighProtein, hcl, hpl, hip, not_le] <;>
      first
      | exact lt_of_not_ge hip
      | exact Or.inl (lt_of_not_ge hip)

/-- C3 counterexample to the claim as stated: today's history holds a
qualifying carb entry (timestamp 1) and a qualifying protein entry with a
strictly LATER timestamp (2), so the claim predicts the sequencing rule
passes (no warning); the code's comparison is `protein < carb`, which is
false here, so evaluating a high-protein item emits the sequencing
warning. -/
theorem highProteinSequence_claim_counterexample :
    15 ≤ fxItemProtein.proteinG ∧
    (fxHistSeq.filter fun h => h.macrosConsumed.carbsG > 15).getLast? = some fxEntryCarb ∧
    (fxHistSeq.filter fun h => h.macrosConsumed.proteinG > 15).getLast? = some fxEntryProt ∧
    fxEntryCarb.timestamp < fxEntryProt.timestamp ∧
    (evaluateItem ⟨fxItemProtein, fxTimeNoon, fxProfileHP, fxHistSeq⟩).warnings =
      ["Try to eat protein before carbs for better satiety"] := by
  decide

/-- Closed instance of the amended C3 theorem at the carbs-then-protein
history. -/
theorem highProteinSequence_polarity_amended_witness :
    (evaluateItem ⟨fxItemProtein, fxTimeNoon, fxProfileHP, fxHistSeq⟩).warnings =
      (if highProteinSequenceCondition ⟨fxItemProtein, fxTimeNoon, fxProfileHP, fxHistSeq⟩
       then [] else ["Try to eat protein before carbs for better satiety"]) ∧
    (highProteinSequenceCondition ⟨fxItemProtein, fxTimeNoon, fxProfileHP, fxHistSeq⟩ = true ↔
      (fxItemProtein.proteinG < 15 ∨
       (fxHistSeq.filter fun h => h.macrosConsumed.carbsG > 15).getLast? = none ∨
       ∃ p c,
         (fxHistSeq.filter fun h => h.macrosConsumed.proteinG > 15).getLast? = some p ∧
         (fxHistSeq.filter fun h => h.macrosConsumed.carbsG > 15).getLast? = some c ∧
         p.timestamp < c.timestamp)) :=
  highProteinSequence_polarity_amended fxItemProtein fxTimeNoon fxProfileHP fxHistSeq rfl

/-- C4: `checkDailyLimits` rejects exactly when the diet carries a carbs
ceiling (50 for keto, 130 for low-glycemic) and today's aggregated carbs
plus the candidate's carbs exceed it; a fitting result carries no
warnings, and a rejection carries exactly the warning naming the ceiling
value (whose text contains the digits of the ceiling).  Every other diet
type — including high-protein, whose protein floor in the limits table is
never compared — always fits with no warnings. -/
theorem checkDailyLimits_carb_ceiling_spec (item : InventoryItem)
    (hist : List DietaryHistoryEntry) (dt : DietType) :
    ((checkDailyLimits item hist dt).fits = false ↔
      ((dt = DietType.keto ∧ (calculateDailyMacros hist).totalCarbs + item.carbsG > 50) ∨
       (dt = DietType.lowGlycemic ∧
         (calculateDailyMacros hist).totalCarbs + item.carbsG > 130)))
    ∧ ((checkDailyLimits item hist dt).fits = true →
        (checkDailyLimits item hist dt).warnings = [])
    ∧ (dt = DietType.keto → (calculateDailyMacros hist).totalCarbs + item.carbsG > 50 →
        (checkDailyLimits item hist dt).warnings = [carbLimitWarning 50] ∧
        containsSeq ("50".data) ((carbLimitWarning 50).data) = true)
    ∧ (dt = DietType.lowGlycemic →
        (calculateDailyMacros hist).totalCarbs + item.carbsG > 130 →
        (checkDailyLimits item hist dt).warnings = [carbLimitWarning 130] ∧
        containsSeq ("130".data) ((carbLimitWarning 130).data) = true) := by
  have h50 : (50 : ℚ) ≠ 0 := by norm_num
  have h130 : (130 : ℚ) ≠ 0 := by norm_num
  refine ⟨?_, ?_, ?_, ?_⟩
  · cases dt <;>
      by_cases hgt : (calculateDailyMacros hist).totalCarbs + item.carbsG > 50 <;>
      by_cases hgt2 : (calculateDailyMacros hist).totalCarbs + item.carbsG > 130 <;>
      simp [checkDailyLimits, dietLimits, h50, h130, hgt, hgt2]
  · cases dt <;>
      by_cases hgt : (calculateDailyMacros hist).totalCarbs + item.carbsG > 50 <;>
      by_cases hgt2 : (calculateDailyMacros hist).totalCarbs + item.carbsG > 130 <;>
      simp [checkDailyLimits, dietLimits, h50, h130, hgt, hgt2]
  · rintro rfl hgt
    exact ⟨by simp [checkDailyLimits, dietLimits, h50, hgt], by decide⟩
  · rintro rfl hgt
    exact ⟨by simp [checkDailyLimits, dietLimits, h130, hgt], by decide⟩

/-- Closed instance of the C4 theorem at the spec scenario: keto, 25g of
carbs already consumed, a 30g-carbs candidate. -/
theorem checkDailyLimits_carb_ceiling_spec_witness :
    (checkDailyLimits fxItemCarb30 [fxEntryKeto] DietType.keto).fits = false ∧
    (checkDailyLimits fxItemCarb30 [fxEntryKeto] DietType.keto).warnings =
      [carbLimitWarning 50] ∧
    containsSeq ("50".data) ((carbLimitWarning 50).data) = true := by
  have h := checkDailyLimits_carb_ceiling_spec fxItemCarb30 [fxEntryKeto] DietType.keto
  have hgt : (calculateDailyMacros [fxEntryKeto]).totalCarbs + fxItemCarb30.carbsG > 50 := by
    norm_num [calculateDailyMacros, fxEntryKeto, fxItemCarb30, List.foldl]
  exact ⟨h.1.mpr (Or.inl ⟨rfl, hgt⟩), (h.2.2.1 rfl hgt).1, (h.2.2.1 rfl hgt).2⟩

/-! Component characterisation of the daily-macro aggregation. -/

lemma foldl_macros (l : List DietaryHistoryEntry) :
    ∀ acc : DailyMacros,
      (l.foldl (fun acc entry =>
        { totalCarbs := acc.totalCarbs + entry.macrosConsumed.carbsG,
          totalProtein := acc.totalProtein + entry.macrosConsumed.proteinG,
          totalFat := acc.totalFat + entry.macrosConsumed.fatG,
          totalFiber := acc.totalFiber + entry.macrosConsumed.fiberG,
          totalCalories := acc.totalCalories + entry.macrosConsumed.calories.getD 0 }) acc) =
      DailyMacros.add acc (calculateDailyMacros l) := by
  induction l with
  | nil =>
    intro acc
    cases acc
    simp [calculateDailyMacros, DailyMacros.add]
  | cons e l ih =>
    intro acc
    rw [List.foldl_cons, ih]
    conv_rhs => rw [calculateDailyMacros, List.foldl_cons, ih]
    simp only [DailyMacros.add, DailyMacros.mk.injEq]
    refine ⟨?_, ?_, ?_, ?_, ?_⟩ <;> ring

/-- `calculateDailyMacros` as the five component sums. -/
lemma calculateDailyMacros_components (l : List DietaryHistoryEntry) :
    calculateDailyMacros l =
      ⟨(l.map fun e => e.macrosConsumed.carbsG).sum,
       (l.map fun e => e.macrosConsumed.proteinG).sum,
       (l.map fun e => e.macrosConsumed.fatG).sum,
       (l.map fun e => e.macrosConsumed.fiberG).sum,
       (l.map fun e => e.macrosConsumed.calories.getD 0).sum⟩ := by
  induction l with
  | nil => rfl
  | cons e l ih =>
    rw [calculateDailyMacros, List.foldl_cons, foldl_macros, ih]
    simp [DailyMacros.add, DailyMacros.mk.injEq]

/-- C5: the daily-macro aggregation is additive over list append,
invariant under permutation of the entries, and an entry without a
`calories` value contributes zero to `totalCalories`. -/
theorem calculateDailyMacros_additive_and_orderfree :
    (∀ A B : List DietaryHistoryEntry,
      calculateDailyMacros (A ++ B) =
        DailyMacros.add (calculateDailyMacros A) (calculateDailyMacros B)) ∧
    (∀ A B : List DietaryHistoryEntry, A.Perm B →
      calculateDailyMacros A = calculateDailyMacros B) ∧
    (∀ (e : DietaryHistoryEntry) (l : List DietaryHistoryEntry),
      e.macrosConsumed.calories = none →
      (calculateDailyMacros (e :: l)).totalCalories =
        (calculateDailyMacros l).totalCalories) := by
  refine ⟨?_, ?_, ?_⟩
  · intro A B
    rw [calculateDailyMacros_components, calculateDailyMacros_components,
      calculateDailyMacros_components]
    simp [DailyMacros.add, DailyMacros.mk.injEq, List.map_append, List.sum_append]
  · intro A B hab
    rw [calculateDailyMacros_components, calculateDailyMacros_components,
      (hab.map fun e => e.macrosConsumed.carbsG).sum_eq,
      (hab.map fun e => e.macrosConsumed.proteinG).sum_eq,
      (hab.map fun e => e.macrosConsumed.fatG).sum_eq,
      (hab.map fun e => e.macrosConsumed.fiberG).sum_eq,
      (hab.map fun e => e.macrosConsumed.calories.getD 0).sum_eq]
  · intro e l hnone
    rw [calculateDailyMacros_components, calculateDailyMacros_components]
    simp [hnone]

/-- Closed instance of the C5 theorem: additivity on concrete lists, a
concrete two-entry swap, and a calories-free entry contributing zero. -/
theorem calculateDailyMacros_additive_witness :
    calculateDailyMacros (fxHistSeq ++ [fxEntryKeto]) =
      DailyMacros.add (calculateDailyMacros fxHistSeq) (calculateDailyMacros [fxEntryKeto]) ∧
    calculateDailyMacros [fxEntryCarb, fxEntryProt] =
      calculateDailyMacros [fxEntryProt, fxEntryCarb] ∧
    (calculateDailyMacros [fxEntryCarb]).totalCalories =
      (calculateDailyMacros []).totalCalories := by
  have h := calculateDailyMacros_additive_and_orderfree
  exact ⟨h.1 fxHistSeq [fxEntryKeto],
    h.2.1 _ _ (List.Perm.swap fxEntryProt fxEntryCarb []),
    h.2.2 fxEntryCarb [] rfl⟩

/-- C7: the suggestion score is clamped into `[0, 100]` for every input,
however extreme. -/
theorem suggestionScore_clamped (item : InventoryItem) (profile : UserProfile)
    (hist : List DietaryHistoryEntry) (t : DateTime) :
    0 ≤ (calculateSuggestionScore item profile hist t).score ∧
    (calculateSuggestionScore item profile hist t).score ≤ 100 := by
  constructor
  · exact le_max_left 0 _
  · exact max_le (by norm_num) (min_le_left 100 _)

/-! Properties of the stable descending sort. -/

lemma insertDescBy_perm (s : MealSuggestion) (l : List MealSuggestion) :
    (insertDescBy s l).Perm (s :: l) := by
  induction l with
  | nil => exact List.Perm.refl _
  | cons t ts ih =>
    rw [insertDescBy]
    split_ifs with h
    · exact (ih.cons t).trans (List.Perm.swap s t ts)
    · exact List.Perm.refl _

lemma sortByScoreDesc_perm (l : List MealSuggestion) :
    (sortByScoreDesc l).Perm l := by
  induction l with
  | nil => exact List.Perm.refl _
  | cons s ss ih =>
    exact (insertDescBy_perm s (sortByScoreDesc ss)).trans (ih.cons s)

lemma insertDescBy_sorted (s : MealSuggestion) (l : List MealSuggestion)
    (h : l.Pairwise fun a b => b.score ≤ a.score) :
    (insertDescBy s l).Pairwise fun a b => b.score ≤ a.score := by
  induction l with
  | nil => simp [insertDescBy]
  | cons t ts ih =>
    rw [List.pairwise_cons] at h
    rw [insertDescBy]
    split_ifs with hgt
    · rw [List.pairwise_cons]
      refine ⟨fun b hb => ?_, ih h.2⟩
      rcases List.mem_cons.mp ((insertDescBy_perm s ts).mem_iff.mp hb) with hb | hb
      · exact hb ▸ le_of_lt hgt
      · exact h.1 b hb
    · rw [List.pairwise_cons]
      refine ⟨fun b hb => ?_, List.pairwise_cons.mpr h⟩
      rcases List.mem_cons.mp hb with hb | hb
      · exact hb ▸ le_of_not_lt hgt
      · exact le_trans (h.1 b hb) (le_of_not_lt hgt)

lemma sortByScoreDesc_sorted (l : List MealSuggestion) :
    (sortByScoreDesc l).Pairwise fun a b => b.score ≤ a.score := by
  induction l with
  | nil => simp [sortByScoreDesc]
  | cons s ss ih => exact insertDescBy_sorted s (sortByScoreDesc ss) ih

lemma filter_insertDescBy (s : MealSuggestion) (l : List MealSuggestion) (v : ℤ) :
    (insertDescBy s l).filter (fun x => decide (x.score = v)) =
      if s.score = v then s :: l.filter (fun x => decide (x.score = v))
      else l.filter (fun x => decide (x.score = v)) := by
  induction l with
  | nil => by_cases hsv : s.score = v <;> simp [insertDescBy, List.filter, hsv]
  | cons t ts ih =>
    rw [insertDescBy]
    by_cases hgt : t.score > s.score
    · rw [if_pos hgt, List.filter_cons, ih]
      by_cases htv : t.score = v <;> by_cases hsv : s.score = v
      · exact absurd hgt (by omega)
      · simp [htv, hsv, List.filter_cons]
      · simp [htv, hsv, List.filter_cons]
      · simp [htv, hsv, List.filter_cons]
    · rw [if_neg hgt, List.filter_cons]
      by_cases hsv : s.score = v <;> simp [hsv]

lemma filter_sortByScoreDesc (l : List MealSuggestion) (v : ℤ) :
    (sortByScoreDesc l).filter (fun x => decide (x.score = v)) =
      l.filter (fun x => decide (x.score = v)) := by
  induction l with
  | nil => rfl
  | cons s ss ih =>
    rw [sortByScoreDesc, filter_insertDescBy, List.filter_cons]
    by_cases hsv : s.score = v <;> simp [hsv, ih]

/-! Characterisation of the per-item suggestion builder. -/

lemma suggestionFor_some {profile : UserProfile} {hist : List DietaryHistoryEntry}
    {t : DateTime} {item : InventoryItem} {s : MealSuggestion}
    (h : suggestionFor profile hist t item = some s) :
    s.item = item ∧ 20 ≤ s.score ∧
    s.score = (calculateSuggestionScore item profile hist t).score ∧
    item.category ≠ FoodCategory.condiments ∧
    (∀ q, item.quantity = Quantity.known q → 0 < q) := by
  simp only [suggestionFor] at h
  by_cases hq0 : (match item.quantity with
      | Quantity.known q => decide (q ≤ 0) | Quantity.unknown => false) = true
  · rw [if_pos hq0] at h
    exact absurd h (by simp)
  · rw [if_neg hq0] at h
    by_cases hc : item.category = FoodCategory.condiments
    · rw [if_pos hc] at h
      exact absurd h (by simp)
    · rw [if_neg hc] at h
      by_cases hs : (calculateSuggestionScore item profile hist t).score ≥ 20
      · rw [if_pos hs] at h
        injection h with h
        subst h
        refine ⟨rfl, hs, rfl, hc, fun q hq => ?_⟩
        rw [hq] at hq0
        simp only [decide_eq_true_eq] at hq0
        exact lt_of_not_ge hq0
      · rw [if_neg hs] at h
        exact absurd h (by simp)

lemma suggestionFor_some_of_unknown {profile : UserProfile}
    {hist : List DietaryHistoryEntry} {t : DateTime} {item : InventoryItem}
    (hq : item.quantity = Quantity.unknown)
    (hc : item.category ≠ FoodCategory.condiments)
    (hs : 20 ≤ (calculateSuggestionScore item profile hist t).score) :
    ∃ s, suggestionFor profile hist t item = some s ∧ s.item = item := by
  refine ⟨⟨item,
    if (calculateSuggestionScore item profile hist t).reasons.length > 0
    then String.intercalate ". " (calculateSuggestionScore item profile hist t).reasons
    else "Available in your pantry",
    (calculateSuggestionScore item profile hist t).score,
    (calculateSuggestionScore item profile hist t).warnings⟩, ?_, rfl⟩
  unfold suggestionFor
  rw [hq, if_neg (by decide), if_neg hc, if_pos hs]

/-- C6: no suggestion of `generateSuggestions` carries an item with a
known non-positive quantity or a condiments-category item, for every
inventory, profile, history and time; and the quantity filter does not
exclude items of unknown quantity — such an item (outside condiments,
scoring at least 20) does appear. -/
theorem generateSuggestions_exclusions (inv : List InventoryItem) (profile : UserProfile)
    (hist : List DietaryHistoryEntry) (t : DateTime) :
    (∀ s ∈ generateSuggestions inv profile hist t,
      (∀ q, s.item.quantity = Quantity.known q → 0 < q) ∧
      s.item.category ≠ FoodCategory.condiments) ∧
    (∀ item ∈ inv, item.quantity = Quantity.unknown →
      item.category ≠ FoodCategory.condiments →
      20 ≤ (calculateSuggestionScore item profile hist t).score →
      ∃ s ∈ generateSuggestions inv profile hist t, s.item = item) := by
  constructor
  · intro s hs
    rw [generateSuggestions, (sortByScoreDesc_perm _).mem_iff, buildSuggestions,
      List.mem_filterMap] at hs
    obtain ⟨item, _, hsome⟩ := hs
    have h := suggestionFor_some hsome
    rw [h.1]
    exact ⟨h.2.2.2.2, h.2.2.2.1⟩
  · intro item hitem hq hc hs
    obtain ⟨s, hsome, hsitem⟩ := suggestionFor_some_of_unknown hq hc hs
    refine ⟨s, ?_, hsitem⟩
    rw [generateSuggestions, (sortByScoreDesc_perm _).mem_iff, buildSuggestions,
      List.mem_filterMap]
    exact ⟨item, hitem, hsome⟩

/-- Closed instance of the C6 theorem: the unknown-quantity pantry item
appears in the output, and the concrete output suggestion satisfies the
exclusion properties. -/
theorem generateSuggestions_exclusions_witness :
    ((∀ q, fxSuggestion.item.quantity = Quantity.known q → 0 < q) ∧
      fxSuggestion.item.category ≠ FoodCategory.condiments) ∧
    (∃ s ∈ generateSuggestions [fxItem] fxProfileVeg [] fxTimeNoon, s.item = fxItem) := by
  have h := generateSuggestions_exclusions [fxItem] fxProfileVeg [] fxTimeNoon
  exact ⟨h.1 fxSuggestion (by decide), h.2 fxItem (by decide) rfl (by decide) (by decide)⟩

/-- C9: every suggestion in the output scores at least 20; the output is
sorted by non-increasing score; and for every score value, the output's
suggestions of that score are exactly those of the pre-sort list (built
in inventory encounter order), in the same order — the sort is stable,
with no secondary key. -/
theorem generateSuggestions_threshold_sorted_stable (inv : List InventoryItem)
    (profile : UserProfile) (hist : List DietaryHistoryEntry) (t : DateTime) :
    (∀ s ∈ generateSuggestions inv profile hist t, 20 ≤ s.score) ∧
    (generateSuggestions inv profile hist t).Pairwise (fun a b => b.score ≤ a.score) ∧
    (∀ v : ℤ,
      (generateSuggestions inv profile hist t).filter (fun s => decide (s.score = v)) =
        (buildSuggestions inv profile hist t).filter (fun s => decide (s.score = v))) := by
  refine ⟨?_, sortByScoreDesc_sorted _, fun v => filter_sortByScoreDesc _ v⟩
  intro s hs
  rw [generateSuggestions, (sortByScoreDesc_perm _).mem_iff, buildSuggestions,
    List.mem_filterMap] at hs
  obtain ⟨item, _, hsome⟩ := hs
  exact (suggestionFor_some hsome).2.1

/-- Closed instance of the C9 theorem on a one-item inventory. -/
theorem generateSuggestions_threshold_sorted_stable_witness :
    20 ≤ fxSuggestion.score ∧
    (generateSuggestions [fxItem] fxProfileVeg [] fxTimeNoon).filter
        (fun s => decide (s.score = 75)) =
      (buildSuggestions [fxItem] fxProfileVeg [] fxTimeNoon).filter
        (fun s => decide (s.score = 75)) := by
  have h := generateSuggestions_threshold_sorted_stable [fxItem] fxProfileVeg [] fxTimeNoon
  exact ⟨h.1 fxSuggestion (by decide), h.2.2 75⟩

/-! Frame lemmas: nothing in the rule table or the other scoring factors
reads `expirationDate`. -/

lemma condition_ignores_expiration (item : InventoryItem) (t : DateTime)
    (profile : UserProfile) (hist : List DietaryHistoryEntry) :
    ∀ r ∈ dietRules,
      r.condition ⟨{ item with expirationDate := none }, t, profile, hist⟩ =
        r.condition ⟨item, t, profile, hist⟩ := by
  intro r hr
  fin_cases hr <;> rfl

lemma foldl_evalStep_congr (p1 p2 : DietRuleParams) (rules : List DietRule)
    (hcond : ∀ r ∈ rules, r.condition p1 = r.condition p2) :
    ∀ st : EvalResult, rules.foldl (evalStep p1) st = rules.foldl (evalStep p2) st := by
  induction rules with
  | nil => intro st; rfl
  | cons r rs ih =>
    intro st
    rw [List.foldl_cons, List.foldl_cons,
      show evalStep p1 st r = evalStep p2 st r from by
        simp only [evalStep, hcond r (List.mem_cons_self r rs)]]
    exact ih (fun x hx => hcond x (List.mem_cons_of_mem _ hx)) _

lemma evaluateItem_ignores_expiration (item : InventoryItem) (t : DateTime)
    (profile : UserProfile) (hist : List DietaryHistoryEntry) :
    evaluateItem ⟨{ item with expirationDate := none }, t, profile, hist⟩ =
      evaluateItem ⟨item, t, profile, hist⟩ := by
  show (getRulesForDiet profile.dietType).foldl
      (evalStep ⟨{ item with expirationDate := none }, t, profile, hist⟩) ⟨true, [], []⟩ =
    (getRulesForDiet profile.dietType).foldl
      (evalStep ⟨item, t, profile, hist⟩) ⟨true, [], []⟩
  exact foldl_evalStep_congr _ _ _
    (fun r hr => condition_ignores_expiration item t profile hist r
      (List.mem_of_mem_filter hr)) _

/-- The unclamped score decomposed against the expiration-free item: the
score differs by exactly the expiration delta, the warnings extend the
expiration-free warnings by the expiration warnings, and the reasons are
the four factor blocks in order. -/
lemma unclamped_structure (item : InventoryItem) (profile : UserProfile)
    (hist : List DietaryHistoryEntry) (t : DateTime) :
    unclampedSuggestionScore item profile hist t =
      { score := (unclampedSuggestionScore { item with expirationDate := none }
            profile hist t).score + (expirationFactor item t).delta,
        reasons := (if (evaluateItem ⟨item, t, profile, hist⟩).passed
            then (evaluateItem ⟨item, t, profile, hist⟩).messages else []) ++
          (expirationFactor item t).reasons ++
          (glucoseGoalFactor item profile).reasons ++
          (mealTimingFactor item t).reasons,
        warnings := (unclampedSuggestionScore { item with expirationDate := none }
            profile hist t).warnings ++ (expirationFactor item t).warnings } := by
  have hev := evaluateItem_ignores_expiration item t profile hist
  have hexp : expirationFactor { item with expirationDate := none } t = ⟨0, [], []⟩ := rfl
  have hlim : checkDailyLimits { item with expirationDate := none } hist profile.dietType =
      checkDailyLimits item hist profile.dietType := rfl
  have hgoal : glucoseGoalFactor { item with expirationDate := none } profile =
      glucoseGoalFactor item profile := rfl
  have htim : mealTimingFactor { item with expirationDate := none } t =
      mealTimingFactor item t := rfl
  have hvar : varietyBonus { item with expirationDate := none } hist =
      varietyBonus item hist := rfl
  have hav : availabilityBonus { item with expirationDate := none } =
      availabilityBonus item := rfl
  simp only [unclampedSuggestionScore, hev, hexp, hlim, hgoal, htim, hvar, hav,
    ScoreParts.mk.injEq]
  refine ⟨by ring, trivial, by simp⟩

/-- C8 (amended): with days-until-expiry `d = (expiration - now) / msPerDay`,
relative to the otherwise-identical item without an expiration date:
`d ≤ 0` contributes −100 to the unclamped score and appends the warning
"This item has expired" (which contains "expired"); `0 < d ≤ 2`
contributes +25 and appends the reason citing `⌈d⌉` days; `2 < d ≤ 5`
contributes +10 with the softer reason; `d > 5` leaves the whole result
unchanged.  The final (clamped) score of an item expiring within two days
is 25 higher than the no-expiration item's exactly when clamping is
inactive, i.e. when the no-expiration unclamped score lies in `[0, 75]`;
the claim's unconditional "+25 on the score" fails under clamping. -/
theorem expiration_contributions_amended (item : InventoryItem) (profile : UserProfile)
    (hist : List DietaryHistoryEntry) (t : DateTime) (e : ℚ)
    (he : item.expirationDate = some e) :
    ((e - t.ms) / msPerDay ≤ 0 →
      (unclampedSuggestionScore item profile hist t).score =
        (unclampedSuggestionScore { item with expirationDate := none }
          profile hist t).score - 100 ∧
      "This item has expired" ∈ (unclampedSuggestionScore item profile hist t).warnings ∧
      containsSeq ("expired".data) ("This item has expired".data) = true) ∧
    (0 < (e - t.ms) / msPerDay → (e - t.ms) / msPerDay ≤ 2 →
      (unclampedSuggestionScore item profile hist t).score =
        (unclampedSuggestionScore { item with expirationDate := none }
          profile hist t).score + 25 ∧
      eatSoonMsg ⌈(e - t.ms) / msPerDay⌉ ∈
        (unclampedSuggestionScore item profile hist t).reasons) ∧
    (2 < (e - t.ms) / msPerDay → (e - t.ms) / msPerDay ≤ 5 →
      (unclampedSuggestionScore item profile hist t).score =
        (unclampedSuggestionScore { item with expirationDate := none }
          profile hist t).score + 10 ∧
      considerSoonMsg ⌈(e - t.ms) / msPerDay⌉ ∈
        (unclampedSuggestionScore item profile hist t).reasons) ∧
    (5 < (e - t.ms) / msPerDay →
      unclampedSuggestionScore item profile hist t =
        unclampedSuggestionScore { item with expirationDate := none } profile hist t) ∧
    (0 < (e - t.ms) / msPerDay → (e - t.ms) / msPerDay ≤ 2 →
      0 ≤ (unclampedSuggestionScore { item with expirationDate := none }
        profile hist t).score →
      (unclampedSuggestionScore { item with expirationDate := none }
        profile hist t).score ≤ 75 →
      (calculateSuggestionScore item profile hist t).score =
        (calculateSuggestionScore { item with expirationDate := none }
          profile hist t).score + 25) := by
  have hs : (unclampedSuggestionScore item profile hist t).score =
      (unclampedSuggestionScore { item with expirationDate := none } profile hist t).score +
        (expirationFactor item t).delta := by
    rw [unclamped_structure item profile hist t]
  have hw : (unclampedSuggestionScore item profile hist t).warnings =
      (unclampedSuggestionScore { item with expirationDate := none } profile hist t).warnings
        ++ (expirationFactor item t).warnings := by
    rw [unclamped_structure item profile hist t]
  have hr : (unclampedSuggestionScore item profile hist t).reasons =
      (if (evaluateItem ⟨item, t, profile, hist⟩).passed
        then (evaluateItem ⟨item, t, profile, hist⟩).messages else []) ++
      (expirationFactor item t).reasons ++
      (glucoseGoalFactor item profile).reasons ++
      (mealTimingFactor item t).reasons := by
    rw [unclamped_structure item profile hist t]
  refine ⟨?_, ?_, ?_, ?_, ?_⟩
  · intro hd
    have hef : expirationFactor item t = ⟨-100, [], ["This item has expired"]⟩ := by
      simp only [expirationFactor, he]
      rw [if_pos hd]
    rw [hef] at hs hw
    refine ⟨by rw [hs]; ring, by rw [hw]; simp, by decide⟩
  · intro hd0 hd2
    have hef : expirationFactor item t =
        ⟨25, [eatSoonMsg ⌈(e - t.ms) / msPerDay⌉], []⟩ := by
      simp only [expirationFactor, he]
      rw [if_neg (not_le.mpr hd0), if_pos hd2]
    rw [hef] at hs hr
    refine ⟨hs, by rw [hr]; simp⟩
  · intro hd2 hd5
    have hef : expirationFactor item t =
        ⟨10, [considerSoonMsg ⌈(e - t.ms) / msPerDay⌉], []⟩ := by
      simp only [expirationFactor, he]
      rw [if_neg (not_le.mpr (lt_trans (by norm_num) hd2)),
        if_neg (not_le.mpr hd2), if_pos hd5]
    rw [hef] at hs hr
    refine ⟨hs, by rw [hr]; simp⟩
  · intro hd5
    have hef : expirationFactor item t = ⟨0, [], []⟩ := by
      simp only [expirationFactor, he]
      rw [if_neg (not_le.mpr (lt_trans (by norm_num) hd5)),
        if_neg (not_le.mpr (lt_trans (by norm_num) hd5)),
        if_neg (not_le.mpr hd5)]
    have h1 := unclamped_structure item profile hist t
    rw [hef] at h1
    have h2 := unclamped_structure { item with expirationDate := none } profile hist t
    simp only [show ({ { item with expirationDate := none } with expirationDate := none } :
        InventoryItem) = { item with expirationDate := none } from rfl,
      show expirationFactor { item with expirationDate := none } t = (⟨0, [], []⟩ : FactorOut)
        from rfl,
      evaluateItem_ignores_expiration item t profile hist,
      show glucoseGoalFactor { item with expirationDate := none } profile =
        glucoseGoalFactor item profile from rfl,
      show mealTimingFactor { item with expirationDate := none } t =
        mealTimingFactor item t from rfl] at h2
    exact h1.trans h2.symm
  · intro hd0 hd2 hlo hhi
    have hef : expirationFactor item t =
        ⟨25, [eatSoonMsg ⌈(e - t.ms) / msPerDay⌉], []⟩ := by
      simp only [expirationFactor, he]
      rw [if_neg (not_le.mpr hd0), if_pos hd2]
    rw [hef] at hs
    have hs2 : (unclampedSuggestionScore item profile hist t).score =
        (unclampedSuggestionScore { item with expirationDate := none }
          profile hist t).score + 25 := hs
    rw [show (calculateSuggestionScore item profile hist t).score =
        max 0 (min 100 (unclampedSuggestionScore item profile hist t).score) from rfl,
      show (calculateSuggestionScore { item with expirationDate := none }
          profile hist t).score =
        max 0 (min 100 (unclampedSuggestionScore { item with expirationDate := none }
          profile hist t).score) from rfl,
      hs2]
    rw [min_eq_right (by omega), max_eq_right (by omega),
      min_eq_right (by omega), max_eq_right (by omega)]

/-- C8 counterexample to the claim's consequent: a vegetarian-diet item
whose expiration-free score is 80 unclamped gains the +25 expiration bump
to 105, which the final clamp cuts to 100 — only 20 above the
otherwise-identical no-expiration item, not 25. -/
theorem expiration_bump_clamp_counterexample :
    fxItemKnownExpiring.expirationDate = some (fxTimeNoon.ms + msPerDay) ∧
    (calculateSuggestionScore fxItemKnownExpiring fxProfileVeg [] fxTimeNoon).score = 100 ∧
    (calculateSuggestionScore { fxItemKnownExpiring with expirationDate := none }
      fxProfileVeg [] fxTimeNoon).score = 80 ∧
    ¬((calculateSuggestionScore fxItemKnownExpiring fxProfileVeg [] fxTimeNoon).score =
      (calculateSuggestionScore { fxItemKnownExpiring with expirationDate := none }
        fxProfileVeg [] fxTimeNoon).score + 25) := by
  have h1 : fxItemKnownExpiring.expirationDate = some (fxTimeNoon.ms + msPerDay) := by
    show some (86400000 : ℚ) = some ((0 : ℚ) + 86400000)
    norm_num
  have hno : (calculateSuggestionScore { fxItemKnownExpiring with expirationDate := none }
      fxProfileVeg [] fxTimeNoon).score = 80 := by decide
  have hnoU : (unclampedSuggestionScore { fxItemKnownExpiring with expirationDate := none }
      fxProfileVeg [] fxTimeNoon).score = 80 := by decide
  have hexp : expirationFactor fxItemKnownExpiring fxTimeNoon =
      ⟨25, [eatSoonMsg 1], []⟩ := by
    simp only [expirationFactor,
      show fxItemKnownExpiring.expirationDate = some 86400000 from rfl]
    norm_num [show fxTimeNoon.ms = 0 from rfl, msPerDay, FactorOut.mk.injEq]
  have hu := unclamped_structure fxItemKnownExpiring fxProfileVeg [] fxTimeNoon
  rw [hexp] at hu
  have hU : (unclampedSuggestionScore fxItemKnownExpiring fxProfileVeg [] fxTimeNoon).score =
      105 := by
    have hp : (unclampedSuggestionScore fxItemKnownExpiring fxProfileVeg [] fxTimeNoon).score =
        (unclampedSuggestionScore { fxItemKnownExpiring with expirationDate := none }
          fxProfileVeg [] fxTimeNoon).score + 25 := by rw [hu]
    rw [hp, hnoU]
    decide
  have hclamp : (calculateSuggestionScore fxItemKnownExpiring fxProfileVeg [] fxTimeNoon).score
      = 100 := by
    rw [show (calculateSuggestionScore fxItemKnownExpiring fxProfileVeg [] fxTimeNoon).score =
      max 0 (min 100
        (unclampedSuggestionScore fxItemKnownExpiring fxProfileVeg [] fxTimeNoon).score)
      from rfl, hU]
    decide
  refine ⟨h1, hclamp, hno, ?_⟩
  rw [hclamp, hno]
  decide

/-- Closed instance of the amended C8 theorem: an item expiring in
exactly one day whose expiration-free unclamped score is 75, so the +25
bump survives the clamp. -/
theorem expiration_contributions_amended_witness :
    (unclampedSuggestionScore fxItemExpiring fxProfileVeg [] fxTimeNoon).score =
      (unclampedSuggestionScore { fxItemExpiring with expirationDate := none }
        fxProfileVeg [] fxTimeNoon).score + 25 ∧
    eatSoonMsg ⌈((86400000 : ℚ) - fxTimeNoon.ms) / msPerDay⌉ ∈
      (unclampedSuggestionScore fxItemExpiring fxProfileVeg [] fxTimeNoon).reasons ∧
    (calculateSuggestionScore fxItemExpiring fxProfileVeg [] fxTimeNoon).score =
      (calculateSuggestionScore { fxItemExpiring with expirationDate := none }
        fxProfileVeg [] fxTimeNoon).score + 25 := by
  have h := expiration_contributions_amended fxItemExpiring fxProfileVeg [] fxTimeNoon
    86400000 rfl
  have h0 : (0 : ℚ) < (86400000 - fxTimeNoon.ms) / msPerDay := by
    show (0 : ℚ) < (86400000 - 0) / 86400000
    norm_num
  have h2 : ((86400000 : ℚ) - fxTimeNoon.ms) / msPerDay ≤ 2 := by
    show ((86400000 : ℚ) - 0) / 86400000 ≤ 2
    norm_num
  have hlo : (0 : ℤ) ≤ (unclampedSuggestionScore
      { fxItemExpiring with expirationDate := none } fxProfileVeg [] fxTimeNoon).score := by
    decide
  have hhi : (unclampedSuggestionScore
      { fxItemExpiring with expirationDate := none } fxProfileVeg [] fxTimeNoon).score ≤ 75 := by
    decide
  exact ⟨(h.2.1 h0 h2).1, (h.2.1 h0 h2).2, h.2.2.2.2 h0 h2 hlo hhi⟩

end DietSite
